import Mathlib

/-!
Verification development for the SCM migration report parser
(`scm-report-parser.py`), a single-file tool that converts a compatibility
JSON document into a static HTML report, optionally enriching entries with
fragments of a hierarchical (XML) configuration document.

The Python source is shallowly embedded below:
* pure string helpers (`html.escape`, `str.strip`, `str.split`, `'/'.join`)
  are re-implemented over `String` / `List Char`;
* the XML node model follows the spec's data model (tag, optional `name`
  attribute, ordered children); the node/forest pair is a mutual inductive
  so that all functions are structural and kernel-computable;
* the JSON payloads consumed by the renderers are typed by their shape
  (finding records, configuration-summary entries, template maps, device
  group trees), with `Option` fields for keys the source reads through
  `dict.get` with a default;
* each Python function keeps its source name (`format_xpath`,
  `extract_xml_from_xpath`, `generate_summary_table`, ...), and the render
  pass takes the formatted timestamp as an explicit `now : String`
  parameter (the single clock read of the source).
-/

/-! ### Python string primitives -/

/-- The double-quote character (written via its code point to keep string
literals simple). -/
def quoteChar : Char := Char.ofNat 34

/-- The single-quote character. -/
def aposChar : Char := Char.ofNat 39

/-- `html.escape` on a single character: `&`, `<`, `>`, `"` and `'` become
entities, everything else is kept.  Applying this character map is
equivalent to the sequential `str.replace` calls of `html.escape`, which
replaces `&` first. -/
def escapeChar (c : Char) : String :=
  if c = '&' then "&amp;"
  else if c = '<' then "&lt;"
  else if c = '>' then "&gt;"
  else if c = quoteChar then "&quot;"
  else if c = aposChar then "&#x27;"
  else String.singleton c

/-- `html.escape` (with its default `quote=True`). -/
def pyEscape (s : String) : String :=
  (s.data.map escapeChar).foldr (fun a b => a ++ b) ""

/-- Concatenate a list of strings (the repeated `html += ...` of the
source, and `''.join`-style appends). -/
def listJoin (l : List String) : String :=
  l.foldr (fun a b => a ++ b) ""

/-- `', '.join` / `'/'.join` style joining. -/
def joinWith (sep : String) : List String → String
  | [] => ""
  | [x] => x
  | x :: y :: rest => x ++ sep ++ joinWith sep (y :: rest)

/-- `s.strip('/')`: drop all leading and trailing slashes. -/
def pyStripSlashes (l : List Char) : List Char :=
  ((l.dropWhile (fun c => c = '/')).reverse.dropWhile (fun c => c = '/')).reverse

/-- `s.split('/')`: split on every slash, keeping empty segments (Python
semantics: `''.split('/') == ['']`, `'a//b'.split('/') == ['a','','b']`). -/
def splitSlash : List Char → List (List Char)
  | [] => [[]]
  | c :: cs =>
    match splitSlash cs with
    | [] => [[c]]
    | p :: ps => if c = '/' then [] :: p :: ps else (c :: p) :: ps

/-- `'/'.join` on raw segments. -/
def joinSlash : List (List Char) → List Char
  | [] => []
  | [p] => p
  | p :: q :: ps => p ++ '/' :: joinSlash (q :: ps)

/-- Drop `pre` from the front of `l`, or fail. -/
def dropPref : List Char → List Char → Option (List Char)
  | [], l => some l
  | _, [] => none
  | p :: ps, c :: cs => if p = c then dropPref ps cs else none

/-- Substring test over character lists (Python's `in` on `str`). -/
def containsSub (pat : List Char) : List Char → Bool
  | [] => pat.isEmpty
  | c :: cs => pat.isPrefixOf (c :: cs) || containsSub pat cs

/-- The literal marker the source tests with `'entry[@name=' in part`. -/
def entryMarker : List Char := "entry[@name=".data

/-- The literal prefix of the regex `entry\[@name="([^"]+)"\]`:
`entry[@name=` followed by the opening double quote. -/
def entryPatternOpen : List Char := "entry[@name=".data ++ [quoteChar]

/-- Try to match the regex `entry\[@name="([^"]+)"\]` anchored at the head
of `l`, returning the captured name.  The capture `[^"]+` is forced: it
must be non-empty and runs exactly up to the next double quote, which must
be followed by `]`. -/
def entryMatchHere (l : List Char) : Option (List Char) :=
  match dropPref entryPatternOpen l with
  | none => none
  | some rest =>
    let nm := rest.takeWhile (fun c => ¬ (c = quoteChar))
    if nm.isEmpty then none
    else
      match rest.drop nm.length with
      | q :: r :: _ => if q = quoteChar ∧ r = ']' then some nm else none
      | _ => none

/-- `re.search(r'entry\[@name="([^"]+)"\]', part)`: scan left to right for
the first position where the pattern matches, returning the captured
name. -/
def entrySearch : List Char → Option (List Char)
  | [] => none
  | c :: cs =>
    match entryMatchHere (c :: cs) with
    | some nm => some nm
    | none => entrySearch cs

/-! ### `format_xpath` (source lines 103-124) -/

/-- Per-segment cleanup: a segment containing `entry[@name=` is replaced by
the name captured by the regex search; if the regex does not match, the raw
segment text is kept; bare segments are kept as they are. -/
def formatPart (part : List Char) : List Char :=
  if containsSub entryMarker part then
    match entrySearch part with
    | some nm => nm
    | none => part
  else part

/-- `format_xpath`: strip the leading/trailing slashes, split on `/`,
clean up every `entry[@name="..."]` segment to just its name, re-join with
`/` and prefix a single leading slash. -/
def format_xpath (xpath : String) : String :=
  let parts := splitSlash (pyStripSlashes xpath.data)
  ⟨'/' :: joinSlash (parts.map formatPart)⟩

/-! ### XML node model and the locator resolver (source lines 41-85) -/

mutual
/-- Hierarchical configuration node: tag name, optional `name` attribute,
ordered children (the spec's data model for the configuration tree). -/
inductive XmlNode where
  | mk (tag : String) (nameAttr : Option String) (children : XmlForest)
/-- Ordered list of child nodes (kept mutual with `XmlNode` so that the
functions below are structural and compute in the kernel). -/
inductive XmlForest where
  | nil
  | cons (n : XmlNode) (f : XmlForest)
end

def XmlNode.tag : XmlNode → String
  | .mk t _ _ => t

def XmlNode.nameAttr : XmlNode → Option String
  | .mk _ a _ => a

def XmlNode.children : XmlNode → XmlForest
  | .mk _ _ c => c

/-- First child whose tag is (literally) `entry` and whose `name` attribute
equals `nm` — body of the `for child in current` loop in the predicate
branch of `extract_xml_from_xpath`. -/
def findEntryChild (nm : List Char) : XmlForest → Option XmlNode
  | .nil => none
  | .cons c f =>
    if c.tag = "entry" ∧ c.nameAttr = some ⟨nm⟩ then some c
    else findEntryChild nm f

/-- First child whose tag equals the bare segment text — body of the
`for child in current` loop in the bare branch. -/
def findTagChild (part : List Char) : XmlForest → Option XmlNode
  | .nil => none
  | .cons c f =>
    if c.tag = ⟨part⟩ then some c else findTagChild part f

/-- The navigation loop of `extract_xml_from_xpath` (source lines 52-79):
walk the already-split non-empty segments from `cur`; any failure (missing
child, or a marker-carrying segment the regex cannot parse) yields `none`
immediately. -/
def resolveParts (cur : XmlNode) : List (List Char) → Option XmlNode
  | [] => some cur
  | part :: rest =>
    if containsSub entryMarker part then
      match entrySearch part with
      | some nm =>
        match findEntryChild nm cur.children with
        | some ch => resolveParts ch rest
        | none => none
      | none => none
    else
      match findTagChild part cur.children with
      | some ch => resolveParts ch rest
      | none => none

/-- Attribute rendering for serialization. -/
def xmlAttrString : Option String → String
  | none => ""
  | some v => " name=" ++ ⟨[quoteChar]⟩ ++ pyEscape v ++ ⟨[quoteChar]⟩

mutual
/-- `ET.tostring(elem, encoding='unicode')` on the node model: childless
elements self-close, elements with children wrap their serialized
children.  Never the empty string (every element prints at least `<tag`),
so the source's `if xml_content:` truthiness test always passes on a
successful resolution. -/
def serializeXml : XmlNode → String
  | .mk t a .nil => "<" ++ t ++ xmlAttrString a ++ " />"
  | .mk t a (.cons c f) =>
    "<" ++ t ++ xmlAttrString a ++ ">" ++ serializeForest (.cons c f) ++ "</" ++ t ++ ">"
def serializeForest : XmlForest → String
  | .nil => ""
  | .cons n f => serializeXml n ++ serializeForest f
end

mutual
/-- `pretty_print_xml ∘ ET.tostring` on the node model: `pretty_print_xml`
re-parses the serialized fragment and re-serializes it after
`ET.indent(elem, space='  ')`; on fragments produced by `serializeXml`
this round-trips the node, so it is modelled as indented serialization. -/
def prettyXmlAux (depth : Nat) : XmlNode → String
  | .mk t a .nil => "<" ++ t ++ xmlAttrString a ++ " />"
  | .mk t a (.cons c f) =>
    "<" ++ t ++ xmlAttrString a ++ ">" ++
      prettyForest (depth + 1) (.cons c f) ++
      "\n" ++ listJoin (List.replicate depth "  ") ++ "</" ++ t ++ ">"
def prettyForest (depth : Nat) : XmlForest → String
  | .nil => ""
  | .cons n f =>
    "\n" ++ listJoin (List.replicate depth "  ") ++ prettyXmlAux depth n ++
      prettyForest depth f
end

def prettyXml (n : XmlNode) : String := prettyXmlAux 0 n

/-- `extract_xml_from_xpath(root, xpath)` (source lines 41-85): `None` root
short-circuits; the path is split on `/` keeping only truthy (non-empty)
segments; the navigation loop runs from the root; a successful resolution
is serialized back to markup text. -/
def extract_xml_from_xpath (root : Option XmlNode) (xpath : String) : Option String :=
  match root with
  | none => none
  | some r =>
    let parts := (splitSlash xpath.data).filter (fun p => ¬ p.isEmpty)
    (resolveParts r parts).map serializeXml

/-! ### Data model (spec section 3, shapes as consumed by the source) -/

/-- Finding record of the three flat categories.  `Option` marks keys the
source reads via `dict.get` with a default; `refTemplates` models
`item.get('referenced-in', {}).get('templates')` and `refXpathTemplates`
models `item.get('referenced-in-with-xpaths', {}).get('templates')` (an
insertion-ordered mapping from template name to locator expressions). -/
structure Item where
  description : Option String
  ruleId : Option String
  feature : Option String
  tag : Option String
  group : Option String
  count : Option Nat
  location : Option String
  refTemplates : Option (List String)
  refXpathTemplates : Option (List (String × List String))

/-- Configuration Summary entry (description / count pair). -/
structure CfgItem where
  description : Option String
  count : Option Nat

/-- Per-template data of the Templates / Template-stacks sections. -/
structure TemplateData where
  unsupportedDrop : Option (List String)
  supportedDrop : Option (List String)

mutual
/-- Device Group node: name, the two aggregate counters (read through
`group.get(..., 0)`), three optional name lists and the child groups. -/
inductive DeviceGroup where
  | mk (name : Option String) (totalUnsupported : Nat) (totalPartiallySupported : Nat)
       (devices : Option (List String)) (templateStacks : Option (List String))
       (templates : Option (List String)) (children : DGList)
/-- Ordered list of device groups (mutual so the renderer is structural). -/
inductive DGList where
  | nil
  | cons (g : DeviceGroup) (gs : DGList)
end

def DGList.isEmpty : DGList → Bool
  | .nil => true
  | .cons _ _ => false

/-- Details payload of a section, typed by shape.  The source dispatches on
the category label and would raise on a payload whose JSON shape does not
fit the category; the embedding types the payload by shape and the
`as*` coercions below return the empty payload on a mismatch, so every
claim is evaluated on shape-consistent inputs. -/
inductive Details where
  | items (xs : List Item)
  | cfg (xs : List CfgItem)
  | tmpl (m : List (String × TemplateData))
  | groups (gs : DGList)

def asItems : Details → List Item
  | .items xs => xs
  | _ => []

def asCfg : Details → List CfgItem
  | .cfg xs => xs
  | _ => []

def asTmpl : Details → List (String × TemplateData)
  | .tmpl m => m
  | _ => []

def asGroups : Details → DGList
  | .groups gs => gs
  | _ => .nil

/-- Python truthiness of a details payload (`if sections.get(cat):`). -/
def detailsTruthy : Details → Bool
  | .items xs => !xs.isEmpty
  | .cfg xs => !xs.isEmpty
  | .tmpl m => !m.isEmpty
  | .groups gs => !gs.isEmpty

/-- Truthiness of `sections.get(cat)` (a missing key gives `None`, which is
falsy). -/
def detailsOptTruthy : Option Details → Bool
  | none => false
  | some d => detailsTruthy d

/-- One section of the input document.  `category` and `details` are
optional because the source reads them with `section.get('category',
'Unknown')` and `section.get('details', [])`. -/
structure RSection where
  category : Option String
  details : Option Details

/-- `section.get('category', 'Unknown')`. -/
def categoryOf (s : RSection) : String := s.category.getD "Unknown"

/-- `section.get('details', [])` (the empty default is falsy and coerces to
the empty payload under every `as*`, like Python's `[]`). -/
def detailsOf (s : RSection) : Details := s.details.getD (.items [])

/-- The three flat categories (source lines 134 and 440/999). -/
def flatCategories : List String :=
  ["Unsupported Features", "Unsupported Flags", "Blocking Features"]

/-! ### Python dict (insertion-ordered, update-in-place) -/

def dictInsert (d : List (String × Details)) (k : String) (v : Details) :
    List (String × Details) :=
  match d with
  | [] => [(k, v)]
  | (k', v') :: rest =>
    if k' = k then (k, v) :: rest else (k', v') :: dictInsert rest k v

def dictGet? (d : List (String × Details)) (k : String) : Option Details :=
  match d with
  | [] => none
  | (k', v) :: rest => if k' = k then some v else dictGet? rest k

/-- `key in sections`. -/
def dictContains (d : List (String × Details)) (k : String) : Bool :=
  (dictGet? d k).isSome

/-- `sections[key]` where the key was already tested with `in`. -/
def dictGetD (d : List (String × Details)) (k : String) : Details :=
  (dictGet? d k).getD (.items [])

/-- The `sections` dict of `generate_html_report` (source lines 432-436):
`sections[section.get('category', 'Unknown')] = section.get('details', [])`
over the input order, later sections overwriting earlier ones. -/
def extractSections (data : List RSection) : List (String × Details) :=
  data.foldl (fun acc s => dictInsert acc (categoryOf s) (detailsOf s)) []

/-! ### `generate_summary_table` (source lines 127-200) -/

/-- One normalized row of the summary table. -/
structure SummaryRow where
  category : String
  ruleId : String
  description : String
  feature : String
  tag : String
  group : String
  count : Nat
  location : String

/-- The `summary_item` dict built for each record (source lines 138-147). -/
def itemRow (category : String) (item : Item) : SummaryRow :=
  ⟨category, item.ruleId.getD "N/A", item.description.getD "N/A",
   item.feature.getD "N/A", item.tag.getD "N/A", item.group.getD "N/A",
   item.count.getD 0, item.location.getD "N/A"⟩

/-- The `all_items` list (source lines 129-148): records of the three flat
categories only, flattened in section order then record order. -/
def summaryItems (data : List RSection) : List SummaryRow :=
  data.flatMap (fun s =>
    let category := categoryOf s
    if category ∈ flatCategories then
      (asItems (detailsOf s)).map (itemRow category)
    else [])

/-- The `category_class` chain (source lines 173-179). -/
def categoryClass (c : String) : String :=
  if c = "Unsupported Features" then "category-unsupported"
  else if c = "Unsupported Flags" then "category-flags"
  else if c = "Blocking Features" then "category-blocking"
  else ""

/-- `generate_summary_table` (source lines 127-200): placeholder message on
no rows, else the table header, one `<tr>` per row, and the footer. -/
def summaryRowHtml (item : SummaryRow) : String :=
  "\n                <tr class=\"" ++ categoryClass item.category ++
  "\">\n                    <td class=\"category-cell\">" ++ pyEscape item.category ++
  "</td>\n                    <td class=\"rule-id-cell\">" ++ pyEscape item.ruleId ++
  "</td>\n                    <td class=\"description-cell\">" ++ pyEscape item.description ++
  "</td>\n                    <td>" ++ pyEscape item.feature ++
  "</td>\n                    <td>" ++ pyEscape item.tag ++
  "</td>\n                    <td>" ++ pyEscape item.group ++
  "</td>\n                    <td class=\"count-cell\">" ++ toString item.count ++
  "</td>\n                    <td>" ++ pyEscape item.location ++
  "</td>\n                </tr>\n        "

def summaryTableHead : String :=
  "\n    <div class=\"table-container\">\n        <table class=\"summary-table\">\n            <thead>\n                <tr>\n                    <th>Category</th>\n                    <th>Rule ID</th>\n                    <th>Description</th>\n                    <th>Feature</th>\n                    <th>Tag</th>\n                    <th>Group</th>\n                    <th>Count</th>\n                    <th>Location</th>\n                </tr>\n            </thead>\n            <tbody>\n    "

def summaryTableFoot : String :=
  "\n            </tbody>\n        </table>\n    </div>\n    "

def generate_summary_table (data : List RSection) : String :=
  let allItems := summaryItems data
  if allItems.isEmpty then
    "<p class=\"no-issues\">No issues found in configuration.</p>"
  else
    summaryTableHead ++ listJoin (allItems.map summaryRowHtml) ++ summaryTableFoot

/-! ### Flat section renderers (source lines 203-300) -/

/-- The fixed info rows of one detail card (source lines 211-242). -/
def detailCardInfoHtml (item : Item) : String :=
  "\n        <div class=\"detail-card unsupported\">\n            <div class=\"detail-header\">\n                <h4>" ++
  pyEscape (item.description.getD "N/A") ++
  "</h4>\n                <span class=\"badge badge-error\">Unsupported</span>\n            </div>\n            <div class=\"detail-content\">\n                <div class=\"info-row\">\n                    <span class=\"label\">Rule ID:</span>\n                    <span class=\"value\">" ++
  pyEscape (item.ruleId.getD "N/A") ++
  "</span>\n                </div>\n                <div class=\"info-row\">\n                    <span class=\"label\">Feature:</span>\n                    <span class=\"value\">" ++
  pyEscape (item.feature.getD "N/A") ++
  "</span>\n                </div>\n                <div class=\"info-row\">\n                    <span class=\"label\">Tag:</span>\n                    <span class=\"value\">" ++
  pyEscape (item.tag.getD "N/A") ++
  "</span>\n                </div>\n                <div class=\"info-row\">\n                    <span class=\"label\">Group:</span>\n                    <span class=\"value\">" ++
  pyEscape (item.group.getD "N/A") ++
  "</span>\n                </div>\n                <div class=\"info-row\">\n                    <span class=\"label\">Count:</span>\n                    <span class=\"value count\">" ++
  toString (item.count.getD 0) ++
  "</span>\n                </div>\n                <div class=\"info-row\">\n                    <span class=\"label\">Location:</span>\n                    <span class=\"value\">" ++
  pyEscape (item.location.getD "N/A") ++
  "</span>\n                </div>\n        "

/-- The `Referenced in Templates` block (source lines 245-252); emitted
only when `item.get('referenced-in', {}).get('templates')` is truthy
(present and non-empty). -/
def refTemplatesHtml (item : Item) : String :=
  match item.refTemplates with
  | some (t :: ts) =>
    "<div class=\"referenced-section\">" ++ "<h5>Referenced in Templates:</h5>" ++
    "<ul class=\"template-list\">" ++
    listJoin ((t :: ts).map (fun tp => "<li>" ++ pyEscape tp ++ "</li>")) ++
    "</ul></div>"
  | _ => ""

/-- The XML enrichment block of one locator (source lines 266-275):
emitted only when a configuration document was supplied and the locator
resolves.  The source calls `extract_xml_from_xpath` and then
`pretty_print_xml`; a resolved node always serializes to a non-empty
string and pretty-printing a string produced by `serializeXml` cannot
fail, so the two truthiness tests always pass and the composition is the
indented serialization of the resolved node. -/
def xmlBlockHtml (xml : Option XmlNode) (xpath : String) : String :=
  match xml with
  | none => ""
  | some root =>
    let parts := (splitSlash xpath.data).filter (fun p => ¬ p.isEmpty)
    match resolveParts root parts with
    | none => ""
    | some node =>
      "<div class=\"xml-content\">" ++
      "<div class=\"xml-content-header\">Configuration XML:</div>" ++
      "<pre class=\"xml-code\">" ++ pyEscape (prettyXml node) ++ "</pre>" ++
      "</div>"

/-- One `<li>` of the configuration-path list (source lines 262-277): the
formatted locator is interpolated without `escape`. -/
def xpathLiHtml (xml : Option XmlNode) (xpath : String) : String :=
  "<li class=\"xpath-item\">" ++ format_xpath xpath ++ xmlBlockHtml xml xpath ++ "</li>"

/-- One `(template, xpaths)` pair of the configuration-path block (source
lines 259-278). -/
def xpathTemplateHtml (xml : Option XmlNode) (tp : String × List String) : String :=
  "<div class=\"xpath-template\"><strong>" ++ pyEscape tp.1 ++ ":</strong></div>" ++
  "<ul class=\"xpath-list\">" ++
  listJoin (tp.2.map (xpathLiHtml xml)) ++
  "</ul>"

/-- The `Configuration Paths` block (source lines 255-279); emitted only
when `item.get('referenced-in-with-xpaths', {}).get('templates')` is
truthy. -/
def xpathSectionHtml (xml : Option XmlNode) (item : Item) : String :=
  match item.refXpathTemplates with
  | some (p :: ps) =>
    "<div class=\"xpath-section\">" ++ "<h5>Configuration Paths:</h5>" ++
    listJoin ((p :: ps).map (xpathTemplateHtml xml)) ++
    "</div>"
  | _ => ""

/-- One full detail card (loop body, source lines 210-281). -/
def detailCardHtml (xml : Option XmlNode) (item : Item) : String :=
  detailCardInfoHtml item ++ refTemplatesHtml item ++ xpathSectionHtml xml item ++
  "</div></div>"

/-- `generate_unsupported_features_section` (source lines 203-284). -/
def generate_unsupported_features_section (details : List Item)
    (xml : Option XmlNode) : String :=
  if details.isEmpty then
    "<p class=\"no-issues\">No unsupported features found.</p>"
  else
    "<div class=\"details-grid\">" ++ listJoin (details.map (detailCardHtml xml)) ++
    "</div>"

/-- `generate_unsupported_flags_section` (source lines 287-292): its own
empty message, otherwise delegates to the features renderer. -/
def generate_unsupported_flags_section (details : List Item)
    (xml : Option XmlNode) : String :=
  if details.isEmpty then
    "<p class=\"no-issues\">No unsupported flags found.</p>"
  else generate_unsupported_features_section details xml

/-- `generate_blocking_features_section` (source lines 295-300): success
message when empty, otherwise delegates to the features renderer. -/
def generate_blocking_features_section (details : List Item)
    (xml : Option XmlNode) : String :=
  if details.isEmpty then
    "<p class=\"success\">No blocking features found.</p>"
  else generate_unsupported_features_section details xml

/-! ### Configuration summary / templates / device groups renderers -/

/-- Loop body of `generate_config_summary_section` (source lines 310-319);
`str(item.get('count', 'N/A'))` renders a missing count as the string
default. -/
def cfgItemHtml (it : CfgItem) : String :=
  "\n        <div class=\"summary-item\">\n            <span class=\"summary-label\">" ++
  pyEscape (it.description.getD "N/A") ++
  ":</span>\n            <span class=\"summary-value\">" ++
  pyEscape (match it.count with | some n => toString n | none => "N/A") ++
  "</span>\n        </div>\n        "

/-- `generate_config_summary_section` (source lines 303-322). -/
def generate_config_summary_section (details : List CfgItem) : String :=
  if details.isEmpty then "<p>No configuration summary available.</p>"
  else
    "<div class=\"summary-grid\">" ++ listJoin (details.map cfgItemHtml) ++ "</div>"

/-- One template card (loop body, source lines 332-358). -/
def templateCardHtml (t : String × TemplateData) : String :=
  "\n        <div class=\"template-card\">\n            <h4 class=\"template-name\">" ++
  pyEscape t.1 ++
  "</h4>\n        " ++
  (match t.2.unsupportedDrop with
   | some (x :: xs) =>
     "<div class=\"template-section\">" ++
     "<h5 class=\"section-title unsupported-title\">Unsupported Features:</h5>" ++
     "<ul class=\"feature-list unsupported-list\">" ++
     listJoin ((x :: xs).map (fun f => "<li>" ++ pyEscape f ++ "</li>")) ++
     "</ul></div>"
   | _ => "") ++
  (match t.2.supportedDrop with
   | some (x :: xs) =>
     "<div class=\"template-section\">" ++
     "<h5 class=\"section-title supported-title\">Supported but Dropped:</h5>" ++
     "<ul class=\"feature-list supported-list\">" ++
     listJoin ((x :: xs).map (fun f => "<li>" ++ pyEscape f ++ "</li>")) ++
     "</ul></div>"
   | _ => "") ++
  "</div>"

/-- `generate_templates_section` (source lines 325-361); iterates the
template mapping in insertion order. -/
def generate_templates_section (details : List (String × TemplateData)) : String :=
  if details.isEmpty then "<p>No template details available.</p>"
  else
    "<div class=\"templates-grid\">" ++ listJoin (details.map templateCardHtml) ++
    "</div>"

/-- An optional-name-list block of a device group card (`Devices:`,
`Template Stacks:`, `Templates:`; source lines 389-402). -/
def dgInfoHtml (label : String) : Option (List String) → String
  | some (d :: ds) =>
    "<div class=\"group-info\">" ++ "<strong>" ++ label ++ ":</strong> " ++
    joinWith ", " ((d :: ds).map pyEscape) ++ "</div>"
  | _ => ""

mutual
/-- `generate_device_group_tree` (source lines 364-412): badge from the
three-way status, card body, then the children at the next level appended
after the card. -/
def generate_device_group_tree (group : DeviceGroup) (level : Nat) : String :=
  match group with
  | .mk name totalUnsupported totalPartiallySupported devices tstacks templates children =>
    let indent := level * 20
    let statusClass :=
      if totalUnsupported > 0 then "has-unsupported"
      else if totalPartiallySupported > 0 then "has-partial"
      else "has-none"
    let statusBadge :=
      if totalUnsupported > 0 then
        "<span class=\"badge badge-error\">" ++ toString totalUnsupported ++
        " unsupported</span>"
      else if totalPartiallySupported > 0 then
        "<span class=\"badge badge-warning\">" ++ toString totalPartiallySupported ++
        " partial</span>"
      else "<span class=\"badge badge-success\">All supported</span>"
    "<div class=\"device-group " ++ statusClass ++ "\" style=\"margin-left: " ++
    toString indent ++ "px;\">" ++
    "<div class=\"group-header\">" ++
    "<h4 class=\"group-name\">" ++ pyEscape (name.getD "Unknown") ++ "</h4>" ++
    statusBadge ++ "</div>" ++
    dgInfoHtml "Devices" devices ++
    dgInfoHtml "Template Stacks" tstacks ++
    dgInfoHtml "Templates" templates ++
    "</div>" ++
    deviceGroupChildrenHtml children (level + 1)
def deviceGroupChildrenHtml (gs : DGList) (level : Nat) : String :=
  match gs with
  | .nil => ""
  | .cons g rest =>
    generate_device_group_tree g level ++ deviceGroupChildrenHtml rest level
end

def dgListTopHtml : DGList → String
  | .nil => ""
  | .cons g rest => generate_device_group_tree g 0 ++ dgListTopHtml rest

/-- `generate_device_groups_section` (source lines 415-426). -/
def generate_device_groups_section (details : DGList) : String :=
  if details.isEmpty then "<p>No device group details available.</p>"
  else
    "<div class=\"device-groups-container\">" ++ dgListTopHtml details ++ "</div>"
/-- Head of the report document (source lines 457-982): doctype, embedded stylesheet, opening markup and the `Generated on: ` label, up to the point where the escaped timestamp is interpolated (one list element per source line). -/
def reportHead1 : String := listJoin [
  "<!DOCTYPE html>\n",
  "<html lang=\"en\">\n",
  "<head>\n",
  "    <meta charset=\"UTF-8\">\n",
  "    <meta name=\"viewport\" content=\"width=device-width, initial-scale=1.0\">\n",
  "    <title>SCM Migration Compatibility Report</title>\n",
  "    <style>\n",
  "        * \x7b\n",
  "            margin: 0;\n",
  "            padding: 0;\n",
  "            box-sizing: border-box;\n",
  "        \x7d\n",
  "        \n",
  "        body \x7b\n",
  "            font-family: -apple-system, BlinkMacSystemFont, \x27Segoe UI\x27, Roboto, \x27Helvetica Neue\x27, Arial, sans-serif;\n",
  "            line-height: 1.6;\n",
  "            color: #333;\n",
  "            background: #f5f5f5;\n",
  "            padding: 20px;\n",
  "        \x7d\n",
  "        \n",
  "        .container \x7b\n",
  "            max-width: 1400px;\n",
  "            margin: 0 auto;\n",
  "            background: white;\n",
  "            padding: 40px;\n",
  "            border-radius: 8px;\n",
  "            box-shadow: 0 2px 10px rgba(0,0,0,0.1);\n",
  "        \x7d\n",
  "        \n",
  "        h1 \x7b\n",
  "            color: #2c3e50;\n",
  "            margin-bottom: 10px;\n",
  "            font-size: 2.5em;\n",
  "            border-bottom: 4px solid #3498db;\n",
  "            padding-bottom: 10px;\n",
  "        \x7d\n",
  "        \n",
  "        .report-meta \x7b\n",
  "            color: #7f8c8d;\n",
  "            margin-bottom: 30px;\n",
  "            font-size: 0.9em;\n",
  "        \x7d\n",
  "        \n",
  "        h2 \x7b\n",
  "            color: #34495e;\n",
  "            margin-top: 40px;\n",
  "            margin-bottom: 20px;\n",
  "            font-size: 1.8em;\n",
  "            padding: 10px;\n",
  "            background: #ecf0f1;\n",
  "            border-left: 5px solid #3498db;\n",
  "        \x7d\n",
  "        \n",
  "        h3 \x7b\n",
  "            color: #2c3e50;\n",
  "            margin-top: 30px;\n",
  "            margin-bottom: 15px;\n",
  "            font-size: 1.4em;\n",
  "        \x7d\n",
  "        \n",
  "        h4 \x7b\n",
  "            color: #34495e;\n",
  "            margin-bottom: 10px;\n",
  "            font-size: 1.2em;\n",
  "        \x7d\n",
  "        \n",
  "        h5 \x7b\n",
  "            color: #555;\n",
  "            margin-top: 15px;\n",
  "            margin-bottom: 8px;\n",
  "            font-size: 1em;\n",
  "            font-weight: 600;\n",
  "        \x7d\n",
  "        \n",
  "        .details-grid \x7b\n",
  "            display: grid;\n",
  "            gap: 20px;\n",
  "            margin-bottom: 20px;\n",
  "        \x7d\n",
  "        \n",
  "        .detail-card \x7b\n",
  "            border: 1px solid #ddd;\n",
  "            border-radius: 6px;\n",
  "            padding: 20px;\n",
  "            background: #fafafa;\n",
  "        \x7d\n",
  "        \n",
  "        .detail-card.unsupported \x7b\n",
  "            border-left: 4px solid #e74c3c;\n",
  "        \x7d\n",
  "        \n",
  "        .detail-header \x7b\n",
  "            display: flex;\n",
  "            justify-content: space-between;\n",
  "            align-items: center;\n",
  "            margin-bottom: 15px;\n",
  "            padding-bottom: 10px;\n",
  "            border-bottom: 2px solid #eee;\n",
  "        \x7d\n",
  "        \n",
  "        .detail-content \x7b\n",
  "            display: flex;\n",
  "            flex-direction: column;\n",
  "            gap: 10px;\n",
  "        \x7d\n",
  "        \n",
  "        .info-row \x7b\n",
  "            display: flex;\n",
  "            padding: 8px;\n",
  "            background: white;\n",
  "            border-radius: 4px;\n",
  "        \x7d\n",
  "        \n",
  "        .label \x7b\n",
  "            font-weight: 600;\n",
  "            color: #555;\n",
  "            min-width: 120px;\n",
  "        \x7d\n",
  "        \n",
  "        .value \x7b\n",
  "            color: #333;\n",
  "        \x7d\n",
  "        \n",
  "        .value.count \x7b\n",
  "            font-weight: bold;\n",
  "            color: #e74c3c;\n",
  "        \x7d\n",
  "        \n",
  "        .badge \x7b\n",
  "            padding: 4px 12px;\n",
  "            border-radius: 12px;\n",
  "            font-size: 0.85em;\n",
  "            font-weight: 600;\n",
  "            white-space: nowrap;\n",
  "        \x7d\n",
  "        \n",
  "        .badge-error \x7b\n",
  "            background: #e74c3c;\n",
  "            color: white;\n",
  "        \x7d\n",
  "        \n",
  "        .badge-warning \x7b\n",
  "            background: #f39c12;\n",
  "            color: white;\n",
  "        \x7d\n",
  "        \n",
  "        .badge-success \x7b\n",
  "            background: #27ae60;\n",
  "            color: white;\n",
  "        \x7d\n",
  "        \n",
  "        .referenced-section \x7b\n",
  "            margin-top: 15px;\n",
  "            padding: 15px;\n",
  "            background: white;\n",
  "            border-radius: 4px;\n",
  "        \x7d\n",
  "        \n",
  "        .template-list \x7b\n",
  "            list-style: none;\n",
  "            margin-top: 8px;\n",
  "        \x7d\n",
  "        \n",
  "        .template-list li \x7b\n",
  "            padding: 6px 12px;\n",
  "            margin: 4px 0;\n",
  "            background: #3498db;\n",
  "            color: white;\n",
  "            border-radius: 4px;\n",
  "            display: inline-block;\n",
  "            margin-right: 8px;\n",
  "        \x7d\n",
  "        \n",
  "        .xpath-section \x7b\n",
  "            margin-top: 15px;\n",
  "            padding: 15px;\n",
  "            background: #f8f9fa;\n",
  "            border: 1px solid #dee2e6;\n",
  "            border-radius: 4px;\n",
  "            font-family: \x27Courier New\x27, monospace;\n",
  "            font-size: 0.9em;\n",
  "        \x7d\n",
  "        \n",
  "        .xpath-section h5 \x7b\n",
  "            color: #495057;\n",
  "            margin-bottom: 10px;\n",
  "        \x7d\n",
  "        \n",
  "        .xpath-template \x7b\n",
  "            margin-top: 12px;\n",
  "            padding: 8px;\n",
  "            background: #e9ecef;\n",
  "            border-radius: 4px;\n",
  "            color: #0056b3;\n",
  "            font-weight: 600;\n",
  "        \x7d\n",
  "        \n",
  "        .xpath-list \x7b\n",
  "            list-style: none;\n",
  "            margin-top: 8px;\n",
  "        \x7d\n",
  "        \n",
  "        .xpath-item \x7b\n",
  "            padding: 8px 12px;\n",
  "            margin: 6px 0;\n",
  "            background: white;\n",
  "            border-left: 3px solid #0056b3;\n",
  "            border-radius: 4px;\n",
  "            overflow-x: auto;\n",
  "            line-height: 1.6;\n",
  "            color: #212529;\n",
  "            word-break: break-all;\n",
  "        \x7d\n",
  "        \n",
  "        .no-issues \x7b\n",
  "            padding: 15px;\n",
  "            background: #d4edda;\n",
  "            color: #155724;\n",
  "            border: 1px solid #c3e6cb;\n",
  "            border-radius: 4px;\n",
  "        \x7d\n",
  "        \n",
  "        .success \x7b\n",
  "            padding: 15px;\n",
  "            background: #d4edda;\n",
  "            color: #155724;\n",
  "            border: 1px solid #c3e6cb;\n",
  "            border-radius: 4px;\n",
  "            font-weight: 600;\n",
  "        \x7d\n",
  "        \n",
  "        .summary-grid \x7b\n",
  "            display: grid;\n",
  "            grid-template-columns: repeat(auto-fill, minmax(280px, 1fr));\n",
  "            gap: 15px;\n",
  "            margin-bottom: 20px;\n",
  "        \x7d\n",
  "        \n",
  "        .summary-item \x7b\n",
  "            padding: 15px;\n",
  "            background: #ecf0f1;\n",
  "            border-radius: 6px;\n",
  "            display: flex;\n",
  "            justify-content: space-between;\n",
  "            align-items: center;\n",
  "            border-left: 4px solid #3498db;\n",
  "        \x7d\n",
  "        \n",
  "        .summary-label \x7b\n",
  "            font-weight: 600;\n",
  "            color: #555;\n",
  "        \x7d\n",
  "        \n",
  "        .summary-value \x7b\n",
  "            font-size: 1.2em;\n",
  "            font-weight: bold;\n",
  "            color: #2c3e50;\n",
  "        \x7d\n",
  "        \n",
  "        .templates-grid \x7b\n",
  "            display: grid;\n",
  "            gap: 20px;\n",
  "            margin-bottom: 20px;\n",
  "        \x7d\n",
  "        \n",
  "        .template-card \x7b\n",
  "            border: 2px solid #3498db;\n",
  "            border-radius: 8px;\n",
  "            padding: 20px;\n",
  "            background: #fafafa;\n",
  "        \x7d\n",
  "        \n",
  "        .template-name \x7b\n",
  "            color: #2c3e50;\n",
  "            margin-bottom: 15px;\n",
  "            padding-bottom: 10px;\n",
  "            border-bottom: 2px solid #3498db;\n",
  "        \x7d\n",
  "        \n",
  "        .template-section \x7b\n",
  "            margin-top: 15px;\n",
  "        \x7d\n",
  "        \n",
  "        .section-title \x7b\n",
  "            margin-bottom: 10px;\n",
  "        \x7d\n",
  "        \n",
  "        .unsupported-title \x7b\n",
  "            color: #e74c3c;\n",
  "        \x7d\n",
  "        \n",
  "        .supported-title \x7b\n",
  "            color: #f39c12;\n",
  "        \x7d\n",
  "        \n",
  "        .feature-list \x7b\n",
  "            list-style: none;\n",
  "        \x7d\n",
  "        \n",
  "        .feature-list li \x7b\n",
  "            padding: 8px 12px;\n",
  "            margin: 4px 0;\n",
  "            border-radius: 4px;\n",
  "        \x7d\n",
  "        \n",
  "        .unsupported-list li \x7b\n",
  "            background: #fadbd8;\n",
  "            border-left: 4px solid #e74c3c;\n",
  "        \x7d\n",
  "        \n",
  "        .supported-list li \x7b\n",
  "            background: #fdeaa3;\n",
  "            border-left: 4px solid #f39c12;\n",
  "        \x7d\n",
  "        \n",
  "        .device-groups-container \x7b\n",
  "            margin-bottom: 20px;\n",
  "        \x7d\n",
  "        \n",
  "        .device-group \x7b\n",
  "            margin: 10px 0;\n",
  "            padding: 15px;\n",
  "            border-radius: 6px;\n",
  "            border: 1px solid #ddd;\n",
  "        \x7d\n",
  "        \n",
  "        .device-group.has-unsupported \x7b\n",
  "            background: #fadbd8;\n",
  "            border-left: 4px solid #e74c3c;\n",
  "        \x7d\n",
  "        \n",
  "        .device-group.has-partial \x7b\n",
  "            background: #fdeaa3;\n",
  "            border-left: 4px solid #f39c12;\n",
  "        \x7d\n",
  "        \n",
  "        .device-group.has-none \x7b\n",
  "            background: #d4edda;\n",
  "            border-left: 4px solid #27ae60;\n",
  "        \x7d\n",
  "        \n",
  "        .group-header \x7b\n",
  "            display: flex;\n",
  "            justify-content: space-between;\n",
  "            align-items: center;\n",
  "            margin-bottom: 10px;\n",
  "        \x7d\n",
  "        \n",
  "        .group-name \x7b\n",
  "            color: #2c3e50;\n",
  "            font-size: 1.1em;\n",
  "        \x7d\n",
  "        \n",
  "        .group-info \x7b\n",
  "            margin: 8px 0;\n",
  "            padding: 8px;\n",
  "            background: white;\n",
  "            border-radius: 4px;\n",
  "            font-size: 0.9em;\n",
  "        \x7d\n",
  "        \n",
  "        .group-info strong \x7b\n",
  "            color: #555;\n",
  "        \x7d\n",
  "        \n",
  "        .table-container \x7b\n",
  "            margin: 20px 0;\n",
  "            overflow-x: auto;\n",
  "        \x7d\n",
  "        \n",
  "        .summary-table \x7b\n",
  "            width: 100%;\n",
  "            border-collapse: collapse;\n",
  "            background: white;\n",
  "            box-shadow: 0 1px 3px rgba(0,0,0,0.1);\n",
  "        \x7d\n",
  "        \n",
  "        .summary-table thead \x7b\n",
  "            background: #34495e;\n",
  "            color: white;\n",
  "        \x7d\n",
  "        \n",
  "        .summary-table th \x7b\n",
  "            padding: 12px 10px;\n",
  "            text-align: left;\n",
  "            font-weight: 600;\n",
  "            font-size: 0.9em;\n",
  "            border-bottom: 2px solid #2c3e50;\n",
  "        \x7d\n",
  "        \n",
  "        .summary-table td \x7b\n",
  "            padding: 10px;\n",
  "            border-bottom: 1px solid #ecf0f1;\n",
  "            font-size: 0.9em;\n",
  "        \x7d\n",
  "        \n",
  "        .summary-table tbody tr:hover \x7b\n",
  "            background: #f8f9fa;\n",
  "        \x7d\n",
  "        \n",
  "        .category-unsupported \x7b\n",
  "            border-left: 4px solid #e74c3c;\n",
  "        \x7d\n",
  "        \n",
  "        .category-flags \x7b\n",
  "            border-left: 4px solid #f39c12;\n",
  "        \x7d\n",
  "        \n",
  "        .category-blocking \x7b\n",
  "            border-left: 4px solid #c0392b;\n",
  "        \x7d\n",
  "        \n",
  "        .category-cell \x7b\n",
  "            font-weight: 600;\n",
  "        \x7d\n",
  "        \n",
  "        .rule-id-cell \x7b\n",
  "            font-family: \x27Courier New\x27, monospace;\n",
  "            color: #0056b3;\n",
  "        \x7d\n",
  "        \n",
  "        .description-cell \x7b\n",
  "            font-weight: 500;\n",
  "        \x7d\n",
  "        \n",
  "        .count-cell \x7b\n",
  "            font-weight: bold;\n",
  "            text-align: center;\n",
  "            color: #e74c3c;\n",
  "        \x7d\n",
  "        \n",
  "        .toc \x7b\n",
  "            background: #f8f9fa;\n",
  "            border: 2px solid #3498db;\n",
  "            border-radius: 8px;\n",
  "            padding: 20px 30px;\n",
  "            margin: 30px 0;\n",
  "        \x7d\n",
  "        \n",
  "        .toc h2 \x7b\n",
  "            margin-top: 0;\n",
  "            margin-bottom: 15px;\n",
  "            background: none;\n",
  "            border: none;\n",
  "            padding: 0;\n",
  "            font-size: 1.5em;\n",
  "            color: #2c3e50;\n",
  "        \x7d\n",
  "        \n",
  "        .toc ul \x7b\n",
  "            list-style: none;\n",
  "            margin: 0;\n",
  "            padding: 0;\n",
  "        \x7d\n",
  "        \n",
  "        .toc ul li \x7b\n",
  "            margin: 8px 0;\n",
  "        \x7d\n",
  "        \n",
  "        .toc a \x7b\n",
  "            color: #0056b3;\n",
  "            text-decoration: none;\n",
  "            padding: 6px 10px;\n",
  "            display: block;\n",
  "            border-radius: 4px;\n",
  "            transition: background-color 0.2s;\n",
  "        \x7d\n",
  "        \n",
  "        .toc a:hover \x7b\n",
  "            background: #e9ecef;\n",
  "            color: #004085;\n",
  "        \x7d\n",
  "        \n",
  "        .toc a::before \x7b\n",
  "            content: \"→ \";\n",
  "            margin-right: 8px;\n",
  "            color: #3498db;\n",
  "        \x7d\n",
  "        \n",
  "        .xml-content \x7b\n",
  "            margin-top: 10px;\n",
  "            padding: 12px;\n",
  "            background: #1e1e1e;\n",
  "            border-radius: 4px;\n",
  "            border: 1px solid #0056b3;\n",
  "        \x7d\n",
  "        \n",
  "        .xml-content-header \x7b\n",
  "            color: #61dafb;\n",
  "            font-weight: 600;\n",
  "            margin-bottom: 8px;\n",
  "            font-size: 0.85em;\n",
  "        \x7d\n",
  "        \n",
  "        .xml-code \x7b\n",
  "            margin: 0;\n",
  "            padding: 12px;\n",
  "            background: #2d2d2d;\n",
  "            border-radius: 4px;\n",
  "            color: #d4d4d4;\n",
  "            font-family: \x27Courier New\x27, Consolas, monospace;\n",
  "            font-size: 0.85em;\n",
  "            overflow-x: auto;\n",
  "            line-height: 1.5;\n",
  "            white-space: pre;\n",
  "        \x7d\n",
  "        \n",
  "        @media print \x7b\n",
  "            body \x7b\n",
  "                background: white;\n",
  "                padding: 0;\n",
  "            \x7d\n",
  "            \n",
  "            .container \x7b\n",
  "                box-shadow: none;\n",
  "                padding: 20px;\n",
  "            \x7d\n",
  "        \x7d\n",
  "    </style>\n",
  "</head>\n",
  "<body>\n",
  "    <div class=\"container\">\n",
  "        <h1>SCM Migration Compatibility Report</h1>\n",
  "        <div class=\"report-meta\">\n",
  "            Generated on: "]

/-- Rest of the head f-string after the timestamp (source lines 982-988), ending with the opened table-of-contents `<ul>`. -/
def reportHead2 : String := listJoin [
  "\n",
  "        </div>\n",
  "        \n",
  "        <div class=\"toc\">\n",
  "            <h2>Table of Contents</h2>\n",
  "            <ul>\n"]

/-! ### Report assembler (`generate_html_report`, source lines 429-1041) -/

/-- The condition gating both the summary TOC entry and the Summary of
Issues section (source lines 440 and 999):
`any(sections.get(cat) for cat in [...])` over the three flat
categories. -/
def summaryGate (sections : List (String × Details)) : Bool :=
  flatCategories.any (fun c => detailsOptTruthy (dictGet? sections c))

/-- `toc_entries` (source lines 439-455): anchor/title pairs appended under
truthiness gates, except Template Stacks which is gated on key presence. -/
def toc_entries (sections : List (String × Details)) : List (String × String) :=
  (if summaryGate sections then [("summary", "Summary of Issues")] else []) ++
  (if detailsOptTruthy (dictGet? sections "Unsupported Features") then
    [("unsupported-features", "Unsupported Features")] else []) ++
  (if detailsOptTruthy (dictGet? sections "Unsupported Flags") then
    [("unsupported-flags", "Unsupported Flags")] else []) ++
  (if detailsOptTruthy (dictGet? sections "Blocking Features") then
    [("blocking-features", "Blocking Features")] else []) ++
  (if detailsOptTruthy (dictGet? sections "Configuration Summary") then
    [("config-summary", "Configuration Summary")] else []) ++
  (if detailsOptTruthy (dictGet? sections "Templates") then
    [("templates", "Templates")] else []) ++
  (if dictContains sections "Template-stacks" then
    [("template-stacks", "Template Stacks")] else []) ++
  (if detailsOptTruthy (dictGet? sections "Device Groups") then
    [("device-groups", "Device Groups")] else [])

/-- One TOC link line (source line 992). -/
def tocLineHtml (e : String × String) : String :=
  "                <li><a href=\"#" ++ e.1 ++ "\">" ++ pyEscape e.2 ++
  "</a></li>\n"

/-- Closing of the TOC block (source lines 994-996). -/
def tocClose : String := "            </ul>\n        </div>\n"

/-- Closing of the document (source lines 1035-1039). -/
def reportFooter : String := "\n    </div>\n</body>\n</html>\n"

/-- The section bodies after the TOC (source lines 998-1033): Summary of
Issues under the flat-category truthiness gate, then the seven category
sections in canonical order, each under a key-presence gate. -/
def reportBody (sections : List (String × Details)) (data : List RSection)
    (xml : Option XmlNode) : String :=
  (if summaryGate sections then
    "        <h2 id=\"summary\">Summary of Issues</h2>\n" ++
    generate_summary_table data
   else "") ++
  (if dictContains sections "Unsupported Features" then
    "<h2 id=\"unsupported-features\">Unsupported Features</h2>" ++
    generate_unsupported_features_section
      (asItems (dictGetD sections "Unsupported Features")) xml
   else "") ++
  (if dictContains sections "Unsupported Flags" then
    "<h2 id=\"unsupported-flags\">Unsupported Flags</h2>" ++
    generate_unsupported_flags_section
      (asItems (dictGetD sections "Unsupported Flags")) xml
   else "") ++
  (if dictContains sections "Blocking Features" then
    "<h2 id=\"blocking-features\">Blocking Features</h2>" ++
    generate_blocking_features_section
      (asItems (dictGetD sections "Blocking Features")) xml
   else "") ++
  (if dictContains sections "Configuration Summary" then
    "<h2 id=\"config-summary\">Configuration Summary</h2>" ++
    generate_config_summary_section (asCfg (dictGetD sections "Configuration Summary"))
   else "") ++
  (if dictContains sections "Templates" then
    "<h2 id=\"templates\">Templates</h2>" ++
    generate_templates_section (asTmpl (dictGetD sections "Templates"))
   else "") ++
  (if dictContains sections "Template-stacks" then
    "<h2 id=\"template-stacks\">Template Stacks</h2>" ++
    (if detailsTruthy (dictGetD sections "Template-stacks") then
      generate_templates_section (asTmpl (dictGetD sections "Template-stacks"))
     else "<p>No template stack details available.</p>")
   else "") ++
  (if dictContains sections "Device Groups" then
    "<h2 id=\"device-groups\">Device Groups</h2>" ++
    generate_device_groups_section (asGroups (dictGetD sections "Device Groups"))
   else "")

/-- `generate_html_report(data, xml_root)` (source lines 429-1041), with
the single `datetime.now().strftime(...)` read of the source passed in as
the explicit clock value `now` (spec: "treat as an injected clock
dependency").  The function is otherwise pure: head, escaped timestamp,
TOC, gated section bodies, footer. -/
def generate_html_report (now : String) (data : List RSection)
    (xml : Option XmlNode) : String :=
  let sections := extractSections data
  reportHead1 ++ pyEscape now ++ reportHead2 ++
  listJoin ((toc_entries sections).map tocLineHtml) ++
  tocClose ++
  reportBody sections data xml ++
  reportFooter

/-! ### Spec-side definitions

The following definitions are written from the wording of the claims (not
from the source), for comparison with the source-side definitions above. -/

/-- Claim C1, as stated, classifies a segment by its shape: a
*name-predicate segment* is `tok[@name="value"]` (non-empty quote-free
value, terminal `"]`), everything else is bare.  This scans for the first
`[@name="` occurrence and returns the literal token preceding the
predicate together with the extracted value. -/
def specSegSplitAux (acc : List Char) : List Char → Option (List Char × List Char)
  | [] => none
  | c :: cs =>
    match dropPref ("[@name=".data ++ [quoteChar]) (c :: cs) with
    | some rest =>
      let v := rest.takeWhile (fun ch => ¬ (ch = quoteChar))
      if ¬ v.isEmpty ∧ rest.drop v.length = [quoteChar, ']'] then
        some (acc.reverse, v)
      else specSegSplitAux (c :: acc) cs
    | none => specSegSplitAux (c :: acc) cs

def specSegSplit (part : List Char) : Option (List Char × List Char) :=
  specSegSplitAux [] part

/-- The walk claim C1 describes: at a name-predicate segment take the
first child whose tag equals the literal token preceding the predicate and
whose name attribute equals the extracted value; at a bare segment the
first child whose tag equals the segment text; otherwise fail with
`none`. -/
def specWalkC1 (cur : XmlNode) : List (List Char) → Option XmlNode
  | [] => some cur
  | part :: rest =>
    match specSegSplit part with
    | some (tok, v) =>
      match specFindTagName tok v cur.children with
      | some ch => specWalkC1 ch rest
      | none => none
    | none =>
      match findTagChild part cur.children with
      | some ch => specWalkC1 ch rest
      | none => none
where
  specFindTagName (tok v : List Char) : XmlForest → Option XmlNode
    | .nil => none
    | .cons c f =>
      if c.tag = ⟨tok⟩ ∧ c.nameAttr = some ⟨v⟩ then some c
      else specFindTagName tok v f

/-- The resolver claim C1 describes, over the slash-separated segments of
the path. -/
def resolveSpecC1 (root : XmlNode) (xpath : String) : Option XmlNode :=
  specWalkC1 root ((splitSlash xpath.data).filter (fun p => ¬ p.isEmpty))

/-- Segment classification of the amended claim C1: a segment containing
the literal marker `entry[@name=` carries a name predicate whose value is
the first regex capture (malformed if the pattern fails to match), and any
other segment is bare. -/
inductive ASeg where
  | pred (v : List Char)
  | malformed
  | bare (text : List Char)

def parseASeg (part : List Char) : ASeg :=
  if containsSub entryMarker part then
    match entrySearch part with
    | some v => .pred v
    | none => .malformed
  else .bare part

/-- The walk of the amended claim C1: a predicate segment takes the first
child whose tag is literally `entry` and whose name attribute equals the
extracted value; a malformed segment fails; a bare segment takes the first
child whose tag equals the segment text; every failure yields `none`
immediately (no partial result, no exception). -/
def amendedWalkC1 (cur : XmlNode) : List ASeg → Option XmlNode
  | [] => some cur
  | .malformed :: _ => none
  | .pred v :: rest =>
    match findEntryChild v cur.children with
    | some ch => amendedWalkC1 ch rest
    | none => none
  | .bare t :: rest =>
    match findTagChild t cur.children with
    | some ch => amendedWalkC1 ch rest
    | none => none

/-- The resolver of the amended claim C1. -/
def resolveC1Amended (root : Option XmlNode) (xpath : String) : Option XmlNode :=
  match root with
  | none => none
  | some r =>
    amendedWalkC1 r (((splitSlash xpath.data).filter (fun p => ¬ p.isEmpty)).map parseASeg)

/-- The seven category labels the assembler handles, in the canonical
order of claim C4 (Summary is derived, not a category label). -/
def canonicalCategories : List String :=
  ["Unsupported Features", "Unsupported Flags", "Blocking Features",
   "Configuration Summary", "Templates", "Template-stacks", "Device Groups"]

/-- Claim-side presence: the category label occurs among the input
sections. -/
def presentIn (data : List RSection) (c : String) : Bool :=
  data.any (fun s => decide (categoryOf s = c))

/-- Claim-side details of a category: the details of the last input
section carrying the label (sections is a map keyed by category; later
occurrences overwrite earlier ones, claim C10). -/
def lastOcc (data : List RSection) (c : String) : Option RSection :=
  match data with
  | [] => none
  | s :: rest =>
    match lastOcc rest c with
    | some r => some r
    | none => if categoryOf s = c then some s else none

def specDetails (data : List RSection) (c : String) : Details :=
  match lastOcc data c with
  | some s => detailsOf s
  | none => .items []

/-- The `<h2>` heading emitted for each canonical category. -/
def sectionHeading (c : String) : String :=
  if c = "Unsupported Features" then
    "<h2 id=\"unsupported-features\">Unsupported Features</h2>"
  else if c = "Unsupported Flags" then
    "<h2 id=\"unsupported-flags\">Unsupported Flags</h2>"
  else if c = "Blocking Features" then
    "<h2 id=\"blocking-features\">Blocking Features</h2>"
  else if c = "Configuration Summary" then
    "<h2 id=\"config-summary\">Configuration Summary</h2>"
  else if c = "Templates" then "<h2 id=\"templates\">Templates</h2>"
  else if c = "Template-stacks" then
    "<h2 id=\"template-stacks\">Template Stacks</h2>"
  else "<h2 id=\"device-groups\">Device Groups</h2>"

/-- The renderer dispatched for each canonical category. -/
def sectionRender (c : String) (d : Details) (xml : Option XmlNode) : String :=
  if c = "Unsupported Features" then
    generate_unsupported_features_section (asItems d) xml
  else if c = "Unsupported Flags" then
    generate_unsupported_flags_section (asItems d) xml
  else if c = "Blocking Features" then
    generate_blocking_features_section (asItems d) xml
  else if c = "Configuration Summary" then
    generate_config_summary_section (asCfg d)
  else if c = "Templates" then generate_templates_section (asTmpl d)
  else if c = "Template-stacks" then
    (if detailsTruthy d then generate_templates_section (asTmpl d)
     else "<p>No template stack details available.</p>")
  else generate_device_groups_section (asGroups d)

/-- The section bodies as claim C4 words them: Summary of Issues first
(under its own flat-record gate), then the seven canonical categories in
their fixed order, each emitted exactly when its label is present among
the input sections, with its (last-occurrence) details. -/
def specCanonicalBody (data : List RSection) (xml : Option XmlNode) : String :=
  (if summaryGate (extractSections data) then
    "        <h2 id=\"summary\">Summary of Issues</h2>\n" ++
    generate_summary_table data
   else "") ++
  listJoin ((canonicalCategories.filter (presentIn data)).map
    (fun c => sectionHeading c ++ sectionRender c (specDetails data c) xml))

/-- Claim-side predicate of claim C5: at least one of the three flat
categories has at least one record. -/
def flatRecordPresent (data : List RSection) : Prop :=
  ∃ s ∈ data, categoryOf s ∈ flatCategories ∧ (asItems (detailsOf s)).isEmpty = false

/-! ### Concrete instances used by counterexamples and witnesses -/

/-- A configuration child whose tag is `subentry` — not the literal
`entry` — carrying the name attribute `a`. -/
def cexChild : XmlNode := .mk "subentry" (some "a") .nil

def cexTree : XmlNode := .mk "root" none (.cons cexChild .nil)

/-- A one-segment path whose literal token preceding the name predicate is
`subentry`. -/
def cexPath : String := "subentry[@name=\"a\"]"

/-- A small finding record. -/
def itmA : Item :=
  ⟨some "descA", some "RA", none, none, none, some 1, none, none, none⟩

/-- A second small finding record, distinct from `itmA`. -/
def itmB : Item :=
  ⟨some "descB", some "RB", none, none, none, some 2, none, none, none⟩

/-- An input document whose only section carries an unknown category
label. -/
def c2data : List RSection := [⟨some "Custom Category", some (.items [itmA])⟩]

/-- An input document with one non-empty flat section. -/
def c5sec : RSection := ⟨some "Unsupported Features", some (.items [itmA])⟩

def c5data : List RSection := [c5sec]

/-- A finding record whose string fields all contain markup-significant
characters, whose reference lists name a template `<f7>`, and whose
locator map sends template `<f8>` to the single locator `<f9>`. -/
def c9item : Item :=
  ⟨some "<f1>", some "<f2>", some "<f3>", some "<f4>", some "<f5>", some 3,
   some "<f6>", some ["<f7>"], some [("<f8>", ["<f9>"])]⟩

/-- The flat-section card markup rendered for `c9item` (no enrichment
document). -/
def c9out : String := generate_unsupported_features_section [c9item] none

/-- An input document with two sections carrying the same flat category
label. -/
def c10data : List RSection :=
  [⟨some "Unsupported Features", some (.items [itmA])⟩,
   ⟨some "Unsupported Features", some (.items [itmB])⟩]

/-! ### Helper lemmas -/

theorem str_data_append (s t : String) : (s ++ t).data = s.data ++ t.data := rfl

theorem str_append_empty (s : String) : s ++ "" = s :=
  String.ext (by simp [str_data_append])

theorem str_empty_append (s : String) : "" ++ s = s :=
  String.ext (by simp [str_data_append])

theorem listJoin_nil : listJoin [] = "" := rfl

theorem listJoin_cons (x : String) (l : List String) :
    listJoin (x :: l) = x ++ listJoin l := rfl

theorem splitSlash_ne_nil (l : List Char) : splitSlash l ≠ [] := by
  cases l with
  | nil => simp [splitSlash]
  | cons c cs =>
    simp only [splitSlash]
    cases splitSlash cs with
    | nil => simp
    | cons p ps => by_cases hc : c = '/' <;> simp [hc]

theorem joinSlash_splitSlash (l : List Char) : joinSlash (splitSlash l) = l := by
  induction l with
  | nil => rfl
  | cons c cs ih =>
    cases h : splitSlash cs with
    | nil => exact absurd h (splitSlash_ne_nil cs)
    | cons p ps =>
      rw [h] at ih
      simp only [splitSlash, h]
      by_cases hc : c = '/'
      · subst hc
        simp only [if_pos]
        show '/' :: joinSlash (p :: ps) = '/' :: cs
        rw [ih]
      · rw [if_neg hc]
        cases ps with
        | nil =>
          show c :: p = c :: cs
          rw [show joinSlash [p] = p from rfl] at ih
          rw [ih]
        | cons q ps' =>
          show (c :: p) ++ '/' :: joinSlash (q :: ps') = c :: cs
          rw [show joinSlash (p :: q :: ps') = p ++ '/' :: joinSlash (q :: ps') from rfl]
            at ih
          simp only [List.cons_append, ih]

theorem dictGet?_insert_same (d : List (String × Details)) (k : String) (v : Details) :
    dictGet? (dictInsert d k v) k = some v := by
  induction d with
  | nil => simp [dictInsert, dictGet?]
  | cons kv rest ih =>
    simp only [dictInsert]
    by_cases h : kv.1 = k
    · simp [h, dictGet?]
    · simp [h, dictGet?, ih]

theorem dictGet?_insert_other (d : List (String × Details)) (k c : String)
    (v : Details) (h : k ≠ c) :
    dictGet? (dictInsert d k v) c = dictGet? d c := by
  induction d with
  | nil => simp [dictInsert, dictGet?, h]
  | cons kv rest ih =>
    simp only [dictInsert]
    by_cases hk : kv.1 = k
    · simp [hk, dictGet?, h, Ne.symm h]
    · simp [hk, dictGet?, ih]

theorem dictGet?_foldl (data : List RSection) (acc : List (String × Details))
    (c : String) :
    dictGet? (data.foldl (fun a s => dictInsert a (categoryOf s) (detailsOf s)) acc) c =
    (match lastOcc data c with
     | some s => some (detailsOf s)
     | none => dictGet? acc c) := by
  induction data generalizing acc with
  | nil => rfl
  | cons s rest ih =>
    simp only [List.foldl, lastOcc, ih]
    cases lastOcc rest c with
    | some r => rfl
    | none =>
      by_cases h : categoryOf s = c
      · simp [h, dictGet?_insert_same]
      · simp [h, dictGet?_insert_other _ _ _ _ h]

/-- The `sections` dict looks every category up to the details of the last
input section carrying it. -/
theorem dictGet?_extractSections (data : List RSection) (c : String) :
    dictGet? (extractSections data) c = (lastOcc data c).map detailsOf := by
  rw [extractSections, dictGet?_foldl]
  cases lastOcc data c <;> rfl

theorem lastOcc_isSome (data : List RSection) (c : String) :
    (lastOcc data c).isSome = data.any (fun s => decide (categoryOf s = c)) := by
  induction data with
  | nil => rfl
  | cons s rest ih =>
    simp only [lastOcc, List.any_cons]
    cases h : lastOcc rest c with
    | some r =>
      rw [h] at ih
      simp [← ih]
    | none =>
      rw [h] at ih
      by_cases hc : categoryOf s = c
      · simp [hc, ← ih]
      · simp [hc, ← ih]

theorem dictContains_extractSections (data : List RSection) (c : String) :
    dictContains (extractSections data) c = presentIn data c := by
  rw [dictContains, dictGet?_extractSections, presentIn, ← lastOcc_isSome]
  cases lastOcc data c <;> rfl

theorem dictGetD_extractSections (data : List RSection) (c : String) :
    dictGetD (extractSections data) c = specDetails data c := by
  rw [dictGetD, dictGet?_extractSections, specDetails]
  cases lastOcc data c <;> rfl

theorem lastOcc_eq_none (data : List RSection) (c : String) :
    lastOcc data c = none ↔ ∀ s ∈ data, ¬ categoryOf s = c := by
  induction data with
  | nil => simp [lastOcc]
  | cons s rest ih =>
    simp only [lastOcc, List.mem_cons]
    cases h : lastOcc rest c with
    | some r =>
      rw [h] at ih
      constructor
      · intro hx; exact absurd hx (by simp)
      · intro hall
        have : ∀ x ∈ rest, ¬ categoryOf x = c := fun x hx => hall x (Or.inr hx)
        exact absurd (ih.mpr this) (by simp [h])
    | none =>
      rw [h] at ih
      by_cases hc : categoryOf s = c
      · simp [hc]
      · simp only [if_neg hc]
        constructor
        · intro _ x hx
          rcases hx with rfl | hx
          · exact hc
          · exact ih.mp rfl x hx
        · intro _
          trivial

theorem lastOcc_mem (data : List RSection) (c : String) (r : RSection)
    (h : lastOcc data c = some r) : r ∈ data ∧ categoryOf r = c := by
  induction data with
  | nil => simp [lastOcc] at h
  | cons s rest ih =>
    simp only [lastOcc] at h
    cases hl : lastOcc rest c with
    | some r' =>
      rw [hl] at h
      obtain rfl : r' = r := by simpa using h
      obtain ⟨h1, h2⟩ := ih hl
      exact ⟨List.mem_cons_of_mem _ h1, h2⟩
    | none =>
      rw [hl] at h
      by_cases hc : categoryOf s = c
      · rw [if_pos hc] at h
        obtain rfl : s = r := by simpa using h
        exact ⟨List.mem_cons_self _ _, hc⟩
      · rw [if_neg hc] at h
        simp at h

theorem lastOcc_filter (data : List RSection) (c : String) (p : RSection → Bool)
    (h : ∀ s, categoryOf s = c → p s = true) :
    lastOcc (data.filter p) c = lastOcc data c := by
  induction data with
  | nil => rfl
  | cons s rest ih =>
    cases hp : p s with
    | true =>
      simp only [List.filter_cons, hp, if_pos, lastOcc, ih]
    | false =>
      have hc : ¬ categoryOf s = c := fun hcc => by
        rw [h s hcc] at hp; simp at hp
      have hfil : List.filter p (s :: rest) = List.filter p rest := by
        simp [List.filter_cons, hp]
      rw [hfil]
      show lastOcc (List.filter p rest) c =
        match lastOcc rest c with
        | some r => some r
        | none => if categoryOf s = c then some s else none
      rw [ih]
      cases lastOcc rest c <;> simp [hc]

theorem flat_subset_canonical : ∀ c ∈ flatCategories, c ∈ canonicalCategories := by
  decide

theorem summaryItems_filter_known (data : List RSection) :
    summaryItems (data.filter
      (fun s => decide (categoryOf s ∈ canonicalCategories))) = summaryItems data := by
  induction data with
  | nil => rfl
  | cons s rest ih =>
    by_cases hk : categoryOf s ∈ canonicalCategories
    · simp only [List.filter_cons, decide_eq_true hk, if_pos, summaryItems,
        List.flatMap_cons] at ih ⊢
      rw [ih]
    · have hf : ¬ categoryOf s ∈ flatCategories := fun hin =>
        hk (flat_subset_canonical _ hin)
      simp only [List.filter_cons, summaryItems, List.flatMap_cons]
      rw [decide_eq_false hk]
      simp only [Bool.false_eq_true, if_neg, if_false]
      simp only [summaryItems] at ih
      rw [ih, if_neg hf, List.nil_append]

/-- Under the data-model invariant that category is a grouping key (no two
sections share a label), the per-category dict entry is truthy exactly
when the input has a section of that category with truthy details. -/
theorem truthyLast (data : List RSection) (c : String)
    (hnd : (data.map categoryOf).Nodup) :
    detailsOptTruthy ((lastOcc data c).map detailsOf) = true ↔
    ∃ s ∈ data, categoryOf s = c ∧ detailsTruthy (detailsOf s) = true := by
  induction data with
  | nil => simp [lastOcc, detailsOptTruthy]
  | cons s rest ih =>
    rw [List.map_cons, List.nodup_cons] at hnd
    obtain ⟨hnotin, hndr⟩ := hnd
    simp only [lastOcc]
    cases hl : lastOcc rest c with
    | some r =>
      obtain ⟨hrmem, hrc⟩ := lastOcc_mem rest c r hl
      have hsc : ¬ categoryOf s = c := fun hcc => by
        apply hnotin
        rw [hcc, ← hrc]
        exact List.mem_map_of_mem categoryOf hrmem
      rw [hl] at ih
      simp only [List.mem_cons]
      constructor
      · intro ht
        obtain ⟨x, hx, hxc, hxt⟩ := (ih hndr).mp ht
        exact ⟨x, Or.inr hx, hxc, hxt⟩
      · intro ⟨x, hx, hxc, hxt⟩
        rcases hx with rfl | hx
        · exact absurd hxc hsc
        · exact (ih hndr).mpr ⟨x, hx, hxc, hxt⟩
    | none =>
      have hnone : ∀ x ∈ rest, ¬ categoryOf x = c := (lastOcc_eq_none rest c).mp hl
      by_cases hc : categoryOf s = c
      · simp only [if_pos hc, Option.map_some, detailsOptTruthy, List.mem_cons]
        constructor
        · intro ht; exact ⟨s, Or.inl rfl, hc, ht⟩
        · intro ⟨x, hx, hxc, hxt⟩
          rcases hx with rfl | hx
          · exact hxt
          · exact absurd hxc (hnone x hx)
      · simp only [if_neg hc, Option.map_none, detailsOptTruthy, List.mem_cons]
        constructor
        · intro ht; exact absurd ht (by simp)
        · intro ⟨x, hx, hxc, hxt⟩
          rcases hx with rfl | hx
          · exact absurd hxc hc
          · exact absurd hxc (hnone x hx)

theorem mem_gate_singleton {α : Type} [DecidableEq α] (a x : α) (b : Bool) :
    a ∈ (if b then [x] else []) ↔ b = true ∧ a = x := by
  cases b <;> simp

theorem listJoin_filter_cons {α : Type} (p : α → Bool) (f : α → String)
    (a : α) (l : List α) :
    listJoin ((List.filter p (a :: l)).map f) =
    (if p a then f a else "") ++ listJoin ((List.filter p l).map f) := by
  cases h : p a with
  | true => simp only [List.filter_cons, h, if_pos, List.map_cons, listJoin_cons]
  | false =>
    simp only [List.filter_cons, h, Bool.false_eq_true, if_neg, if_false]
    rw [str_empty_append]

theorem resolveParts_eq_amendedWalk (parts : List (List Char)) (cur : XmlNode) :
    resolveParts cur parts = amendedWalkC1 cur (parts.map parseASeg) := by
  induction parts generalizing cur with
  | nil => rfl
  | cons part rest ih =>
    simp only [List.map_cons, resolveParts, parseASeg]
    cases hm : containsSub entryMarker part with
    | true =>
      simp only [if_pos]
      cases hs : entrySearch part with
      | some nm =>
        simp only [amendedWalkC1]
        cases findEntryChild nm cur.children with
        | some ch => exact ih ch
        | none => rfl
      | none => rfl
    | false =>
      simp only [Bool.false_eq_true, if_neg, if_false, amendedWalkC1]
      cases findTagChild part cur.children with
      | some ch => exact ih ch
      | none => rfl

/-- The section bodies equal the canonical gated concatenation of claim
C4. -/
theorem reportBody_eq_specCanonical (data : List RSection) (xml : Option XmlNode) :
    reportBody (extractSections data) data xml = specCanonicalBody data xml := by
  have hc := dictContains_extractSections data
  have hd := dictGetD_extractSections data
  simp only [specCanonicalBody, canonicalCategories, listJoin_filter_cons,
    List.filter_nil, List.map_nil, listJoin_nil, str_append_empty]
  simp only [reportBody, hc, hd]
  simp only [sectionHeading, sectionRender]
  simp [String.append_assoc]

theorem report_filter_known (now : String) (data : List RSection)
    (xml : Option XmlNode) :
    generate_html_report now
      (data.filter (fun s => decide (categoryOf s ∈ canonicalCategories))) xml =
    generate_html_report now data xml := by
  have hget : ∀ c ∈ canonicalCategories,
      dictGet? (extractSections
        (data.filter (fun s => decide (categoryOf s ∈ canonicalCategories)))) c =
      dictGet? (extractSections data) c := by
    intro c hcin
    rw [dictGet?_extractSections, dictGet?_extractSections, lastOcc_filter]
    intro s hsc
    rw [hsc]
    exact decide_eq_true hcin
  have e1 := hget "Unsupported Features" (by decide)
  have e2 := hget "Unsupported Flags" (by decide)
  have e3 := hget "Blocking Features" (by decide)
  have e4 := hget "Configuration Summary" (by decide)
  have e5 := hget "Templates" (by decide)
  have e6 := hget "Template-stacks" (by decide)
  have e7 := hget "Device Groups" (by decide)
  have etab : generate_summary_table
      (data.filter (fun s => decide (categoryOf s ∈ canonicalCategories))) =
      generate_summary_table data := by
    unfold generate_summary_table
    rw [summaryItems_filter_known]
  simp only [generate_html_report, toc_entries, reportBody, summaryGate,
    flatCategories, List.any_cons, List.any_nil, dictContains, dictGetD,
    e1, e2, e3, e4, e5, e6, e7, etab]

/-! ### Claim theorems -/

/-- C1: counterexample.  The claim says that on a name-predicate segment
the resolver takes the first child whose tag equals the literal token
preceding the predicate.  On the path `subentry[@name="a"]` against a root
whose only child is `<subentry name="a"/>`, the walk described by the
claim finds that child, but `extract_xml_from_xpath` returns `none`: the
code only ever compares child tags against the hard-coded literal
`entry`. -/
theorem C1_counterexample :
    extract_xml_from_xpath (some cexTree) cexPath = none ∧
    resolveSpecC1 cexTree cexPath = some cexChild :=
  ⟨rfl, rfl⟩

/-- C1 (amended): for every configuration tree and locator path, the
resolver walks the slash-separated non-empty segments from the root; a
segment containing the literal marker `entry[@name=` takes the first
child in document order whose tag is literally `entry` (the token
preceding the predicate is ignored) and whose name attribute equals the
value captured from the first occurrence of the pattern
`entry[@name="..."]`; a marker-free segment takes the first child whose
tag equals the segment text; a marker-carrying segment the pattern cannot
parse is malformed, and it — like any segment without a matching child —
makes resolution return `none` immediately.  Both sides are total
functions into `Option`, so no exception is raised and a partial result
is never returned. -/
theorem C1_resolver_amended (root : Option XmlNode) (xpath : String) :
    extract_xml_from_xpath root xpath =
    (resolveC1Amended root xpath).map serializeXml := by
  cases root with
  | none => rfl
  | some r =>
    simp only [extract_xml_from_xpath, resolveC1Amended,
      resolveParts_eq_amendedWalk]

/-- C7: on a path expression all of whose segments are bare (no segment
contains the name-predicate marker), `format_xpath` equals the input up
to leading/trailing-slash normalization: strip the edge separators, split
on slashes, rejoin with slashes, and prefix a single leading slash.  The
function is total — the raw segment text is its own fallback — so there
is no failure mode. -/
theorem C7_format_bare (p : String)
    (h : ∀ part ∈ splitSlash (pyStripSlashes p.data),
      containsSub entryMarker part = false) :
    format_xpath p = ⟨'/' :: pyStripSlashes p.data⟩ := by
  have hmap : ∀ l : List (List Char),
      (∀ part ∈ l, containsSub entryMarker part = false) →
      l.map formatPart = l := by
    intro l hl
    induction l with
    | nil => rfl
    | cons a l ih =>
      rw [List.map_cons, ih (fun x hx => hl x (List.mem_cons_of_mem _ hx))]
      have ha : formatPart a = a := by
        unfold formatPart
        rw [hl a (List.mem_cons_self _ _)]
        simp
      rw [ha]
  show (⟨'/' :: joinSlash ((splitSlash (pyStripSlashes p.data)).map formatPart)⟩ : String) =
    ⟨'/' :: pyStripSlashes p.data⟩
  rw [hmap _ h, joinSlash_splitSlash]

theorem C7_format_bare_witness :
    (∀ part ∈ splitSlash (pyStripSlashes ("config/devices/vsys" : String).data),
      containsSub entryMarker part = false) ∧
    format_xpath "config/devices/vsys" = "/config/devices/vsys" := by
  refine ⟨by decide, ?_⟩
  rw [C7_format_bare "config/devices/vsys" (by decide)]
  decide

/-- C3: counterexample.  The claim says the flags renderer has no custom
empty-state message; in fact it emits its own message on the empty list —
its output differs from the features renderer's empty output. -/
theorem C3_counterexample :
    generate_unsupported_flags_section [] none ≠
    generate_unsupported_features_section [] none := by
  decide

/-- C3 (amended): on the empty details list the three flat renderers each
emit their own distinct message — features a neutral `no-issues` message,
flags its own neutral `no-issues` message (`No unsupported flags
found.`), blocking a positive `success` message — and on every non-empty
details list, flags and blocking render identically to features. -/
theorem C3_empty_messages :
    (∀ x, generate_unsupported_features_section [] x =
      "<p class=\"no-issues\">No unsupported features found.</p>") ∧
    (∀ x, generate_unsupported_flags_section [] x =
      "<p class=\"no-issues\">No unsupported flags found.</p>") ∧
    (∀ x, generate_blocking_features_section [] x =
      "<p class=\"success\">No blocking features found.</p>") ∧
    ("<p class=\"no-issues\">No unsupported features found.</p>" ≠
      "<p class=\"no-issues\">No unsupported flags found.</p>") ∧
    ("<p class=\"no-issues\">No unsupported features found.</p>" ≠
      "<p class=\"success\">No blocking features found.</p>") ∧
    ("<p class=\"no-issues\">No unsupported flags found.</p>" ≠
      "<p class=\"success\">No blocking features found.</p>") ∧
    (∀ (d : List Item) (x : Option XmlNode), d ≠ [] →
      generate_unsupported_flags_section d x =
        generate_unsupported_features_section d x ∧
      generate_blocking_features_section d x =
        generate_unsupported_features_section d x) := by
  refine ⟨fun x => rfl, fun x => rfl, fun x => rfl,
    by decide, by decide, by decide, ?_⟩
  intro d x hd
  cases d with
  | nil => exact absurd rfl hd
  | cons a l => exact ⟨rfl, rfl⟩

theorem C3_empty_messages_witness :
    ([itmA] ≠ ([] : List Item)) ∧
    (generate_unsupported_flags_section [itmA] none =
      generate_unsupported_features_section [itmA] none ∧
    generate_blocking_features_section [itmA] none =
      generate_unsupported_features_section [itmA] none) :=
  ⟨by simp, C3_empty_messages.2.2.2.2.2.2 [itmA] none (by simp)⟩

/-- C6: the record aggregator is an append homomorphism on section lists
(rows keep outer section order, then record order), and on a single
section it produces rows exactly when the category is one of the three
flat categories, each row copying category, rule identifier, description,
feature, tag, group, count and location from the record, substituting the
`N/A` placeholder for a missing field and `0` for a missing count. -/
theorem C6_aggregator :
    (∀ d1 d2 : List RSection,
      summaryItems (d1 ++ d2) = summaryItems d1 ++ summaryItems d2) ∧
    (∀ s : RSection, summaryItems [s] =
      if categoryOf s ∈ flatCategories then
        (asItems (detailsOf s)).map (fun it =>
          SummaryRow.mk (categoryOf s) (it.ruleId.getD "N/A")
            (it.description.getD "N/A") (it.feature.getD "N/A")
            (it.tag.getD "N/A") (it.group.getD "N/A") (it.count.getD 0)
            (it.location.getD "N/A"))
      else []) := by
  constructor
  · intro d1 d2
    simp [summaryItems]
  · intro s
    by_cases h : categoryOf s ∈ flatCategories <;>
      simp [summaryItems, itemRow, h]

/-- C8: with the clock injected as a parameter (the source's single
`datetime.now()` read), the render pass is a pure function of the input
document, the enrichment document and the timestamp; for a fixed input
and enrichment document, two renders are byte-identical exactly when
their escaped timestamps agree — the single embedded `Generated on:`
field is the only part of the output that depends on the clock, so
re-rendering the same input twice differs at most in that field. -/
theorem C8_timestamp_only (n1 n2 : String) (data : List RSection)
    (xml : Option XmlNode) :
    generate_html_report n1 data xml = generate_html_report n2 data xml ↔
    pyEscape n1 = pyEscape n2 := by
  constructor
  · intro h
    simp only [generate_html_report] at h
    replace h := congrArg String.data h
    simp only [str_data_append] at h
    replace h := List.append_cancel_right h
    replace h := List.append_cancel_right h
    replace h := List.append_cancel_right h
    replace h := List.append_cancel_right h
    replace h := List.append_cancel_right h
    exact String.ext (List.append_cancel_left h)
  · intro h
    simp only [generate_html_report, h]

/-- C2: counterexample.  Records of a section with the unknown category
label `Custom Category` are NOT passed through into the rendered output:
the report for that input equals the report for the empty input, so the
section's records appear nowhere in the output. -/
theorem C2_counterexample :
    generate_html_report "2024-01-01 00:00:00" c2data none =
    generate_html_report "2024-01-01 00:00:00" [] none := by
  simp only [generate_html_report]
  rw [show toc_entries (extractSections c2data) = [] from rfl]
  rw [show reportBody (extractSections c2data) c2data none = "" from rfl]
  rw [show toc_entries (extractSections ([] : List RSection)) = [] from rfl]
  rw [show reportBody (extractSections ([] : List RSection)) [] none = "" from rfl]

/-- C2 (amended): for every input document, sections whose category is not
one of the seven handled labels are excluded from the rendered output and
from the summary table — the report is unchanged when every
unknown-category section is removed from the input. -/
theorem C2_unknown_excluded (now : String) (data : List RSection)
    (xml : Option XmlNode) :
    generate_html_report now data xml =
    generate_html_report now
      (data.filter (fun s => decide (categoryOf s ∈ canonicalCategories))) xml :=
  (report_filter_known now data xml).symm

/-- C4: the assembler emits the report sections in the fixed canonical
order Summary of Issues, Unsupported Features, Unsupported Flags,
Blocking Features, Configuration Summary, Templates, Template Stacks,
Device Groups: the body of the report is the concatenation, over the
canonical category list filtered by presence in the input, of heading
plus rendered section — so each non-Summary section is emitted if and
only if its category label is present among the input sections,
regardless of whether that category's details are empty, while the
Summary block is gated by its own flat-record condition. -/
theorem C4_canonical_order (now : String) (data : List RSection)
    (xml : Option XmlNode) :
    generate_html_report now data xml =
    reportHead1 ++ pyEscape now ++ reportHead2 ++
    listJoin ((toc_entries (extractSections data)).map tocLineHtml) ++
    tocClose ++ specCanonicalBody data xml ++ reportFooter := by
  simp only [generate_html_report, reportBody_eq_specCanonical]

/-- C5: under the data-model invariant that category is a grouping key
(section labels are distinct) and that flat sections carry record lists,
the `summary` table-of-contents anchor is present, and the Summary of
Issues gate fires, exactly when at least one of the three flat categories
has at least one record in the input. -/
theorem C5_summary_anchor (data : List RSection)
    (hnd : (data.map categoryOf).Nodup)
    (hwf : ∀ s ∈ data, categoryOf s ∈ flatCategories →
      ∃ xs, detailsOf s = Details.items xs) :
    ((("summary", "Summary of Issues") ∈ toc_entries (extractSections data)) ↔
      flatRecordPresent data) ∧
    (summaryGate (extractSections data) = true ↔ flatRecordPresent data) := by
  have hgate : summaryGate (extractSections data) = true ↔
      flatRecordPresent data := by
    unfold summaryGate flatRecordPresent
    rw [List.any_eq_true]
    constructor
    · intro ⟨c, hcf, hct⟩
      rw [dictGet?_extractSections] at hct
      obtain ⟨s, hs, hsc, hst⟩ := (truthyLast data c hnd).mp hct
      have hsf : categoryOf s ∈ flatCategories := by rw [hsc]; exact hcf
      obtain ⟨xs, hxs⟩ := hwf s hs hsf
      refine ⟨s, hs, hsf, ?_⟩
      rw [hxs] at hst ⊢
      simpa [detailsTruthy, asItems] using hst
    · intro ⟨s, hs, hsf, hse⟩
      refine ⟨categoryOf s, hsf, ?_⟩
      rw [dictGet?_extractSections]
      apply (truthyLast data (categoryOf s) hnd).mpr
      obtain ⟨xs, hxs⟩ := hwf s hs hsf
      refine ⟨s, hs, rfl, ?_⟩
      rw [hxs] at hse ⊢
      simpa [detailsTruthy, asItems] using hse
  refine ⟨?_, hgate⟩
  rw [← hgate]
  unfold toc_entries
  simp [List.mem_append, mem_gate_singleton, Prod.mk.injEq]

theorem C5_summary_anchor_witness :
    ("summary", "Summary of Issues") ∈ toc_entries (extractSections c5data) ∧
    summaryGate (extractSections c5data) = true := by
  have hnd : (c5data.map categoryOf).Nodup := by decide
  have hwf : ∀ s ∈ c5data, categoryOf s ∈ flatCategories →
      ∃ xs, detailsOf s = Details.items xs := by
    intro s hs _
    have hs' : s = c5sec := by simpa [c5data] using hs
    subst hs'
    exact ⟨[itmA], rfl⟩
  have hp : flatRecordPresent c5data :=
    ⟨c5sec, List.mem_singleton.mpr rfl, by decide, rfl⟩
  have h := C5_summary_anchor c5data hnd hwf
  exact ⟨h.1.mpr hp, h.2.mpr hp⟩

set_option maxRecDepth 100000

/-- C9: in the flat-section card renderer the formatted locator path is
interpolated without HTML escaping, while the other record-derived string
fields (description, rule id, feature, tag, group, location, reference
template names, locator-map template names) are escaped: on a record
whose fields are `<f1>` … `<f8>` and whose locator is `<f9>`, the
rendered card contains `<f9>` verbatim, contains none of `<f1>` … `<f8>`
verbatim, and contains each of their escaped forms instead. -/
theorem C9_xpath_not_escaped :
    containsSub "<f9>".data c9out.data = true ∧
    containsSub "<f1>".data c9out.data = false ∧
    containsSub "<f2>".data c9out.data = false ∧
    containsSub "<f3>".data c9out.data = false ∧
    containsSub "<f4>".data c9out.data = false ∧
    containsSub "<f5>".data c9out.data = false ∧
    containsSub "<f6>".data c9out.data = false ∧
    containsSub "<f7>".data c9out.data = false ∧
    containsSub "<f8>".data c9out.data = false ∧
    containsSub "&lt;f1&gt;".data c9out.data = true ∧
    containsSub "&lt;f2&gt;".data c9out.data = true ∧
    containsSub "&lt;f3&gt;".data c9out.data = true ∧
    containsSub "&lt;f4&gt;".data c9out.data = true ∧
    containsSub "&lt;f5&gt;".data c9out.data = true ∧
    containsSub "&lt;f6&gt;".data c9out.data = true ∧
    containsSub "&lt;f7&gt;".data c9out.data = true ∧
    containsSub "&lt;f8&gt;".data c9out.data = true := by
  decide

/-- C10: the `sections` dict maps every category label to the details of
its last occurrence among the input sections (later occurrences overwrite
earlier ones); on an input with two `Unsupported Features` sections the
rendered section body contains only the second section's records, while
the summary table keeps the rows of both occurrences in input order. -/
theorem C10_duplicate_categories :
    (∀ (data : List RSection) (c : String),
      dictGet? (extractSections data) c = (lastOcc data c).map detailsOf) ∧
    reportBody (extractSections c10data) c10data none =
      ("        <h2 id=\"summary\">Summary of Issues</h2>\n" ++
        generate_summary_table c10data) ++
      ("<h2 id=\"unsupported-features\">Unsupported Features</h2>" ++
        generate_unsupported_features_section [itmB] none) ∧
    summaryItems c10data =
      [itemRow "Unsupported Features" itmA, itemRow "Unsupported Features" itmB] := by
  refine ⟨dictGet?_extractSections, ?_, rfl⟩
  have g1 : summaryGate (extractSections c10data) = true := rfl
  have g2 : dictContains (extractSections c10data) "Unsupported Features" = true := rfl
  have g3 : dictContains (extractSections c10data) "Unsupported Flags" = false := rfl
  have g4 : dictContains (extractSections c10data) "Blocking Features" = false := rfl
  have g5 : dictContains (extractSections c10data) "Configuration Summary" = false := rfl
  have g6 : dictContains (extractSections c10data) "Templates" = false := rfl
  have g7 : dictContains (extractSections c10data) "Template-stacks" = false := rfl
  have g8 : dictContains (extractSections c10data) "Device Groups" = false := rfl
  have gd : asItems (dictGetD (extractSections c10data) "Unsupported Features") =
      [itmB] := rfl
  simp [reportBody, g1, g2, g3, g4, g5, g6, g7, g8, gd, str_append_empty]
